import Mathlib

/-!
Verification of the archive-analysis core of the instagram-unfollower backend
(`src/main.py`).  The Python code is shallowly embedded: uploaded byte buffers
are modelled by the result of parsing them with `zipfile` (either a corrupt
container, or a list of entries carrying name, declared uncompressed size and
the JSON value obtained by `json.load`, `none` standing for malformed JSON);
fallible Python code is modelled in the `Except PyError` monad, where
`PyError` distinguishes the typed `HTTPException`s raised by the code from the
untyped exceptions (`zipfile.BadZipFile`, `json.JSONDecodeError`, `KeyError`,
`TypeError`, ...) that Python's runtime raises.
-/

/-- JSON values as produced by Python's `json.load`.  The field list of an
`obj` stands for an already-parsed Python dict, whose keys are pairwise
distinct (`json.load` collapses duplicate keys, keeping the last). -/
inductive Json where
  | null : Json
  | bool (b : Bool) : Json
  | num (n : Int) : Json
  | str (s : String) : Json
  | arr (xs : List Json) : Json
  | obj (fields : List (String × Json)) : Json
  deriving Repr

mutual

/-- Structural equality of JSON values (Python `==` on parsed JSON data). -/
def Json.beq : Json → Json → Bool
  | .null, .null => true
  | .bool a, .bool b => a == b
  | .num a, .num b => a == b
  | .str a, .str b => a == b
  | .arr a, .arr b => Json.beqList a b
  | .obj a, .obj b => Json.beqFields a b
  | _, _ => false

def Json.beqList : List Json → List Json → Bool
  | [], [] => true
  | a :: as, b :: bs => Json.beq a b && Json.beqList as bs
  | _, _ => false

def Json.beqFields : List (String × Json) → List (String × Json) → Bool
  | [], [] => true
  | (k, v) :: as, (k', v') :: bs => k == k' && Json.beq v v' && Json.beqFields as bs
  | _, _ => false

end

instance : BEq Json := ⟨Json.beq⟩

/-- Exceptions that can escape the analyzed Python code.  `httpError` is the
typed `fastapi.HTTPException(status_code, detail)`; the remaining constructors
are the untyped runtime exceptions relevant to this program. -/
inductive PyError where
  | httpError (status : Nat) (detail : String) : PyError
  | badZipFile : PyError
  | jsonDecodeError : PyError
  | keyError : PyError
  | typeError : PyError
  | attributeError : PyError
  | indexError : PyError
  deriving DecidableEq, Repr

/-- Is the error a typed `HTTPException` (client-error channel)? -/
def PyError.isClientHttpError : PyError → Bool
  | .httpError _ _ => true
  | _ => false

/-- One member of a zip archive: its name, its declared (stored-metadata)
uncompressed size `info.file_size`, and the JSON value that `json.load`
produces from its decompressed bytes (`none` = JSON syntax error). -/
structure ZipEntry where
  name : String
  file_size : Nat
  content : Option Json

/-- An uploaded byte buffer, as seen through `zipfile.ZipFile`: either not a
valid zip container at all (opening raises `BadZipFile`) or a list of
entries. -/
inductive ZipBytes where
  | corrupt : ZipBytes
  | valid (entries : List ZipEntry) : ZipBytes

/-- `zipfile.ZipFile(io.BytesIO(zip_bytes))`. -/
def openZip : ZipBytes → Except PyError (List ZipEntry)
  | .corrupt => .error .badZipFile
  | .valid es => .ok es

/-- `zip_file.open(path)`: CPython resolves the name through the ZipFile's
`NameToInfo` dictionary, which is filled by assignment in file order, so a
duplicated name resolves to the LAST entry bearing it (the first in the
reversed entry list); `KeyError` when no entry has this name. -/
def zipOpen (es : List ZipEntry) (path : String) : Except PyError ZipEntry :=
  match es.reverse.find? (fun e => decide (e.name = path)) with
  | some e => .ok e
  | none => .error .keyError

/-- `json.load(f)` on an opened entry: the parsed value, or `JSONDecodeError`
on a syntax error. -/
def jsonLoad (e : ZipEntry) : Except PyError Json :=
  match e.content with
  | some j => .ok j
  | none => .error .jsonDecodeError

/-- `try: ... except KeyError: return dflt` around a computation. -/
def catchKeyError (m : Except PyError α) (dflt : α) : Except PyError α :=
  match m with
  | .error .keyError => .ok dflt
  | r => r

/-- Python truthiness of a JSON value. -/
def pyTruthy : Json → Bool
  | .null => false
  | .bool b => b
  | .num n => n != 0
  | .str s => !s.toList.isEmpty
  | .arr xs => !xs.isEmpty
  | .obj fs => !fs.isEmpty

/-- Python iteration `for x in j`: the elements of a list, the keys of a
dict, the one-character strings of a string; iterating anything else raises
`TypeError`. -/
def pyIter : Json → Except PyError (List Json)
  | .arr xs => .ok xs
  | .obj fs => .ok (fs.map (fun p => .str p.1))
  | .str s => .ok (s.toList.map (fun c => .str (String.mk [c])))
  | _ => .error .typeError

/-- Python `j.get(k, d)`: dict lookup with default; on a non-dict the
attribute `get` does not exist (`AttributeError`). -/
def pyGetDefault (j : Json) (k : String) (d : Json) : Except PyError Json :=
  match j with
  | .obj fs =>
    match fs.find? (fun p => decide (p.1 = k)) with
    | some p => .ok p.2
    | none => .ok d
  | _ => .error .attributeError

/-- Python `j[k]` with a string key: dict lookup raising `KeyError` when the
key is absent, `TypeError` on a non-dict. -/
def pyIndex (j : Json) (k : String) : Except PyError Json :=
  match j with
  | .obj fs =>
    match fs.find? (fun p => decide (p.1 = k)) with
    | some p => .ok p.2
    | none => .error .keyError
  | _ => .error .typeError

/-- Python `j[i]` with a non-negative integer index. -/
def pyIndexNat (j : Json) (i : Nat) : Except PyError Json :=
  match j with
  | .arr xs =>
    match xs.get? i with
    | some x => .ok x
    | none => .error .indexError
  | .str s =>
    match s.toList.get? i with
    | some c => .ok (.str (String.mk [c]))
    | none => .error .indexError
  | _ => .error .typeError

/-- Does `needle` start `hay`? -/
def listStartsWith [BEq α] : List α → List α → Bool
  | _, [] => true
  | [], _ :: _ => false
  | a :: as, b :: bs => a == b && listStartsWith as bs

/-- Substring test on element lists (Python `needle in hay`). -/
def listContains [BEq α] : List α → List α → Bool
  | [], needle => needle.isEmpty
  | h :: t, needle => listStartsWith (h :: t) needle || listContains t needle

/-- Python substring containment `needle in hay` on strings. -/
def strContains (hay needle : String) : Bool := listContains hay.toList needle.toList

/-- ASCII lower-casing of one code point (Python `str.lower` on the ASCII
names appearing in these archives). -/
def lowerNat (n : Nat) : Nat := if 65 ≤ n ∧ n ≤ 90 then n + 32 else n

/-- The code points of `s.lower()`. -/
def lowerCodes (s : String) : List Nat := s.toList.map (fun c => lowerNat c.toNat)

/-- The code points of `s`. -/
def codes (s : String) : List Nat := s.toList.map (·.toNat)

/-- Python `s.endswith(suffix)` on code-point lists. -/
def listEndsWith [BEq α] (s suffix : List α) : Bool := listStartsWith s.reverse suffix.reverse

/-- Lexicographic strict comparison of code-point lists (Python `<` on
strings, by Unicode code point). -/
def pyCharListLt : List Char → List Char → Bool
  | [], [] => false
  | [], _ :: _ => true
  | _ :: _, [] => false
  | a :: as, b :: bs =>
    if a.toNat < b.toNat then true
    else if b.toNat < a.toNat then false
    else pyCharListLt as bs

/-- Python `a < b` on strings. -/
def pyStrLt (a b : String) : Bool := pyCharListLt a.toList b.toList

/-- Python `a <= b` on strings (total, since `<` is a strict total order). -/
def pyStrLe (a b : String) : Bool := !(pyStrLt b a)

/-- Insert into a `pyStrLe`-sorted list. -/
def insertSortedStr (x : String) : List String → List String
  | [] => [x]
  | y :: ys => if pyStrLe x y then x :: y :: ys else y :: insertSortedStr x ys

/-- Sorting a list of strings in ascending lexicographic (code point) order,
the order Python's `sorted` uses on `str`. -/
def sortStrings : List String → List String
  | [] => []
  | x :: xs => insertSortedStr x (sortStrings xs)

/-- `MAX_SIZE = 50 * 1024 * 1024` (main.py line 53). -/
def MAX_SIZE : Nat := 50 * 1024 * 1024

/-- `MAX_FILES = 100` (main.py line 54). -/
def MAX_FILES : Nat := 100

/-- `DANGEROUS_EXTENSIONS` (main.py line 55). -/
def DANGEROUS_EXTENSIONS : List String := [".exe", ".bat", ".py", ".sh"]

/-- `is_zip_safe` (main.py lines 58-60): the sum of the declared uncompressed
entry sizes must not exceed `MAX_SIZE`. -/
def is_zip_safe (z : ZipBytes) : Except PyError Bool :=
  (openZip z).bind fun es =>
  .ok (decide ((es.map (·.file_size)).sum ≤ MAX_SIZE))

/-- `has_too_many_files` (main.py lines 63-65). -/
def has_too_many_files (z : ZipBytes) : Except PyError Bool :=
  (openZip z).bind fun es =>
  .ok (decide (es.length > MAX_FILES))

/-- `has_dangerous_files` (main.py lines 68-70):
`any(name.lower().endswith(tuple(DANGEROUS_EXTENSIONS)) for name in namelist)`. -/
def has_dangerous_files (z : ZipBytes) : Except PyError Bool :=
  (openZip z).bind fun es =>
  .ok (es.any (fun e => DANGEROUS_EXTENSIONS.any
    (fun ext => listEndsWith (lowerCodes e.name) (codes ext))))

/-- The collected `entry["value"]` of one `string_list_data` list
(inner loop of the set comprehensions in main.py lines 85-89 and 94-98). -/
def valuesOfEntries : List Json → Except PyError (List Json)
  | [] => .ok []
  | e :: rest =>
    (pyIndex e "value").bind fun v =>
    (valuesOfEntries rest).bind fun vs =>
    .ok (v :: vs)

/-- The collected `entry["value"]` over
`for item in items for entry in item.get("string_list_data", [])`. -/
def valuesOfItems : List Json → Except PyError (List Json)
  | [] => .ok []
  | item :: rest =>
    (pyGetDefault item "string_list_data" (Json.arr [])).bind fun sld =>
    (pyIter sld).bind fun entries =>
    (valuesOfEntries entries).bind fun vs =>
    (valuesOfItems rest).bind fun vrest =>
    .ok (vs ++ vrest)

/-- The fixed error detail of main.py line 80. -/
def MISSING_MSG : String := "followers_1.json 또는 following.json이 누락됨"

/-- `extract_usernames_from_zip` (main.py lines 73-100).  The Python set
comprehensions are modelled by the value lists in document order; set
semantics (deduplication) is applied where the sets are consumed, in
`pySortedStrings` and `setDiff`, which is observationally equivalent. -/
def extract_usernames_from_zip (z : ZipBytes) : Except PyError (List Json × List Json) :=
  (openZip z).bind fun entries =>
  let namelist := entries.map (·.name)
  let followers_path := namelist.find? (fun n => strContains n "followers_1.json")
  let following_path := namelist.find? (fun n => strContains n "following.json")
  match followers_path, following_path with
  | some fp, some gp =>
    -- `if not followers_path or not following_path`: an empty string is falsy
    if fp.toList.isEmpty || gp.toList.isEmpty then .error (.httpError 400 MISSING_MSG)
    else
      (zipOpen entries fp).bind fun fe =>
      (jsonLoad fe).bind fun followers_data =>
      (pyIter followers_data).bind fun items =>
      (valuesOfItems items).bind fun followers =>
      (zipOpen entries gp).bind fun ge =>
      (jsonLoad ge).bind fun following_data =>
      (pyGetDefault following_data "relationships_following" (Json.arr [])).bind fun rel =>
      (pyIter rel).bind fun gitems =>
      (valuesOfItems gitems).bind fun following =>
      .ok (followers, following)
  | _, _ => .error (.httpError 400 MISSING_MSG)

/-- The fixed path of main.py line 106. -/
def RECENTLY_PATH : String := "connections/followers_and_following/recently_unfollowed_profiles.json"

/-- The fixed path of main.py line 120. -/
def BLOCKED_PATH : String := "connections/followers_and_following/blocked_profiles.json"

/-- The fixed path of main.py line 133. -/
def PENDING_PATH : String := "connections/followers_and_following/pending_follow_requests.json"

/-- `entry["string_list_data"][0]["value"] for entry in records if
entry.get("string_list_data")` (main.py lines 108-112 and 135-139). -/
def firstValuesOf : List Json → Except PyError (List Json)
  | [] => .ok []
  | e :: rest =>
    (pyGetDefault e "string_list_data" Json.null).bind fun cond =>
    if pyTruthy cond then
      (pyIndex e "string_list_data").bind fun sld =>
      (pyIndexNat sld 0).bind fun first =>
      (pyIndex first "value").bind fun v =>
      (firstValuesOf rest).bind fun vs =>
      .ok (v :: vs)
    else firstValuesOf rest

/-- `extract_recently_unfollowed` (main.py lines 103-114): the whole body runs
under `try: ... except KeyError: return []`. -/
def extract_recently_unfollowed (z : ZipBytes) : Except PyError (List Json) :=
  (openZip z).bind fun entries =>
  catchKeyError (
    (zipOpen entries RECENTLY_PATH).bind fun e =>
    (jsonLoad e).bind fun data =>
    (pyGetDefault data "relationships_unfollowed_users" (Json.arr [])).bind fun rel =>
    (pyIter rel).bind fun records =>
    firstValuesOf records) []

/-- `entry["title"] for entry in records` (main.py lines 122-125). -/
def titlesOf : List Json → Except PyError (List Json)
  | [] => .ok []
  | e :: rest =>
    (pyIndex e "title").bind fun t =>
    (titlesOf rest).bind fun ts =>
    .ok (t :: ts)

/-- `extract_blocked_users` (main.py lines 117-127). -/
def extract_blocked_users (z : ZipBytes) : Except PyError (List Json) :=
  (openZip z).bind fun entries =>
  catchKeyError (
    (zipOpen entries BLOCKED_PATH).bind fun e =>
    (jsonLoad e).bind fun data =>
    (pyGetDefault data "relationships_blocked_users" (Json.arr [])).bind fun rel =>
    (pyIter rel).bind fun records =>
    titlesOf records) []

/-- `extract_pending_requests` (main.py lines 130-141). -/
def extract_pending_requests (z : ZipBytes) : Except PyError (List Json) :=
  (openZip z).bind fun entries =>
  catchKeyError (
    (zipOpen entries PENDING_PATH).bind fun e =>
    (jsonLoad e).bind fun data =>
    (pyGetDefault data "relationships_follow_requests_sent" (Json.arr [])).bind fun rel =>
    (pyIter rel).bind fun records =>
    firstValuesOf records) []

/-- Python set difference `a - b` on the collected value lists. -/
def setDiff (a b : List Json) : List Json := a.filter (fun x => !(b.contains x))

/-- The string payloads of a value list (all values are strings whenever
`sorted` succeeds below). -/
def stringsOf (l : List Json) : List String :=
  l.filterMap fun j => match j with | .str s => some s | _ => none

/-- Convert every collected value to its string; a non-string among them makes
Python's `sorted` raise `TypeError` when compared against the strings. -/
def strsOf? : List Json → Except PyError (List String)
  | [] => .ok []
  | j :: rest =>
    ((match j with | .str s => .ok s | _ => .error .typeError : Except PyError String)).bind fun s =>
    (strsOf? rest).bind fun ss =>
    .ok (s :: ss)

/-- `sorted(list(S))` on a Python set of collected values: deduplicate (set
semantics) and sort ascending. -/
def pySortedStrings (l : List Json) : Except PyError (List String) :=
  (strsOf? l).bind fun ss =>
  .ok (sortStrings ss.dedup)

/-- The response record of main.py lines 182-188. -/
structure AnalyzeResult where
  unfollowers : List String
  not_following_back : List String
  recently_unfollowed : List Json
  blocked_users : List Json
  pending_requests : List Json
  deriving Repr

/-- `analyze_zip_files` (main.py lines 144-188), in the source's exact
sequence: the three guards on `new_zip`, the four extractions from `new_zip`,
then — only if `old_zip` was supplied — the three guards on `old_zip`, the
followers extraction from `old_zip` and the unfollower diff, and finally
`not_following_back` and the response record. -/
def analyze_zip_files (new_bytes : ZipBytes) (old_zip : Option ZipBytes) :
    Except PyError AnalyzeResult :=
  (is_zip_safe new_bytes).bind fun safe =>
  if !safe then .error (.httpError 400 "new_zip 압축 해제 용량 초과") else
  (has_too_many_files new_bytes).bind fun many =>
  if many then .error (.httpError 400 "new_zip 파일 수 초과") else
  (has_dangerous_files new_bytes).bind fun dang =>
  if dang then .error (.httpError 400 "new_zip에 위험한 파일이 포함됨") else
  (extract_usernames_from_zip new_bytes).bind fun nfg =>
  (extract_recently_unfollowed new_bytes).bind fun recently =>
  (extract_blocked_users new_bytes).bind fun blocked =>
  (extract_pending_requests new_bytes).bind fun pending =>
  (match old_zip with
   | some old_bytes =>
     (is_zip_safe old_bytes).bind fun osafe =>
     if !osafe then .error (.httpError 400 "old_zip 압축 해제 용량 초과") else
     (has_too_many_files old_bytes).bind fun omany =>
     if omany then .error (.httpError 400 "old_zip 파일 수 초과") else
     (has_dangerous_files old_bytes).bind fun odang =>
     if odang then .error (.httpError 400 "old_zip에 위험한 파일이 포함됨") else
     (extract_usernames_from_zip old_bytes).bind fun ofg =>
     pySortedStrings (setDiff ofg.1 nfg.1)
   | none => .ok []).bind fun unfollowers =>
  (pySortedStrings (setDiff nfg.2 nfg.1)).bind fun nfb =>
  .ok ⟨unfollowers, nfb, recently, blocked, pending⟩

/-- Modelled from the spec (section 4.4): the orchestration sequence the spec
describes — `validate(new) → validate(old) → extractSnapshot(new) (+ the
three optional extractions) → extract followers-only from old → diff` — with
the same guard and extraction primitives and the same error strings.  This is
the comparison point for the claimed stage order; the code's own order is
`analyze_zip_files` above. -/
def analyze_specOrder (new_bytes : ZipBytes) (old_zip : Option ZipBytes) :
    Except PyError AnalyzeResult :=
  (is_zip_safe new_bytes).bind fun safe =>
  if !safe then .error (.httpError 400 "new_zip 압축 해제 용량 초과") else
  (has_too_many_files new_bytes).bind fun many =>
  if many then .error (.httpError 400 "new_zip 파일 수 초과") else
  (has_dangerous_files new_bytes).bind fun dang =>
  if dang then .error (.httpError 400 "new_zip에 위험한 파일이 포함됨") else
  (match old_zip with
   | some old_bytes =>
     (is_zip_safe old_bytes).bind fun osafe =>
     if !osafe then .error (.httpError 400 "old_zip 압축 해제 용량 초과") else
     (has_too_many_files old_bytes).bind fun omany =>
     if omany then .error (.httpError 400 "old_zip 파일 수 초과") else
     (has_dangerous_files old_bytes).bind fun odang =>
     if odang then .error (.httpError 400 "old_zip에 위험한 파일이 포함됨") else
     .ok ()
   | none => .ok ()).bind fun _ =>
  (extract_usernames_from_zip new_bytes).bind fun nfg =>
  (extract_recently_unfollowed new_bytes).bind fun recently =>
  (extract_blocked_users new_bytes).bind fun blocked =>
  (extract_pending_requests new_bytes).bind fun pending =>
  (match old_zip with
   | some old_bytes =>
     (extract_usernames_from_zip old_bytes).bind fun ofg =>
     pySortedStrings (setDiff ofg.1 nfg.1)
   | none => .ok []).bind fun unfollowers =>
  (pySortedStrings (setDiff nfg.2 nfg.1)).bind fun nfb =>
  .ok ⟨unfollowers, nfb, recently, blocked, pending⟩

/-- Two successive invocations of the analysis on the same inputs (the server
keeps no state between requests, so each call is this same function). -/
def analyze_twice (new_bytes : ZipBytes) (old_zip : Option ZipBytes) :
    Except PyError AnalyzeResult × Except PyError AnalyzeResult :=
  (analyze_zip_files new_bytes old_zip, analyze_zip_files new_bytes old_zip)

/-- A `{"value": s}` record. -/
def vEntry (s : String) : Json := Json.obj [("value", Json.str s)]

/-- An item carrying a `string_list_data` list of value records. -/
def slItem (ss : List String) : Json :=
  Json.obj [("string_list_data", Json.arr (ss.map vEntry))]

/-- A followers document: a JSON list of items. -/
def followersDoc (ss : List String) : Json := Json.arr [slItem ss]

/-- A following document: `{"relationships_following": [...]}`. -/
def followingDoc (ss : List String) : Json :=
  Json.obj [("relationships_following", Json.arr [slItem ss])]

/-- Name of the followers document entry in the concrete archives. -/
def FOLLOWERS_NAME : String := "connections/followers_and_following/followers_1.json"

/-- Name of the following document entry in the concrete archives. -/
def FOLLOWING_NAME : String := "connections/followers_and_following/following.json"

/-- A well-formed new archive: followers {a, c} (with a duplicated value),
following {a, d}; no optional documents. -/
def goodNew : ZipBytes := .valid
  [⟨FOLLOWERS_NAME, 100, some (followersDoc ["a", "c", "a"])⟩,
   ⟨FOLLOWING_NAME, 50, some (followingDoc ["a", "d"])⟩]

/-- A well-formed old archive: followers {a, b, c} (with a duplicate). -/
def goodOld : ZipBytes := .valid
  [⟨FOLLOWERS_NAME, 100, some (followersDoc ["a", "b", "c", "b"])⟩,
   ⟨FOLLOWING_NAME, 50, some (followingDoc ["x"])⟩]


/-- `l` is in strictly ascending lexicographic (code point) order. -/
def strictAsc (l : List String) : Prop := l.Pairwise (fun a b => pyStrLt a b = true)

theorem charToNat_inj {a b : Char} (h : a.toNat = b.toNat) : a = b := by
  have h2 := congrArg Char.ofNat h
  rwa [Char.ofNat_toNat, Char.ofNat_toNat] at h2

theorem pyCharListLt_asymm :
    ∀ as bs, pyCharListLt as bs = true → pyCharListLt bs as = false := by
  intro as
  induction as with
  | nil =>
    intro bs h
    cases bs with
    | nil => simp [pyCharListLt] at h
    | cons b bs' => simp [pyCharListLt]
  | cons a as' ih =>
    intro bs h
    cases bs with
    | nil => simp [pyCharListLt] at h
    | cons b bs' =>
      simp only [pyCharListLt] at h ⊢
      by_cases h1 : a.toNat < b.toNat
      · have h2 : ¬ b.toNat < a.toNat := by omega
        simp [h1, h2]
      · by_cases h2 : b.toNat < a.toNat
        · simp [h1, h2] at h
        · simp only [h1, h2, if_false] at h ⊢
          exact ih bs' h

theorem pyCharListLt_trans :
    ∀ as bs cs, pyCharListLt as bs = true → pyCharListLt bs cs = true →
      pyCharListLt as cs = true := by
  intro as
  induction as with
  | nil =>
    intro bs cs h1 h2
    cases bs with
    | nil => simp [pyCharListLt] at h1
    | cons b bs' =>
      cases cs with
      | nil => simp [pyCharListLt] at h2
      | cons c cs' => simp [pyCharListLt]
  | cons a as' ih =>
    intro bs cs h1 h2
    cases bs with
    | nil => simp [pyCharListLt] at h1
    | cons b bs' =>
      cases cs with
      | nil => simp [pyCharListLt] at h2
      | cons c cs' =>
        simp only [pyCharListLt] at h1 h2 ⊢
        by_cases hab : a.toNat < b.toNat
        · by_cases hbc : b.toNat < c.toNat
          · have hac : a.toNat < c.toNat := by omega
            simp [hac]
          · by_cases hcb : c.toNat < b.toNat
            · simp [hbc, hcb] at h2
            · have hac : a.toNat < c.toNat := by omega
              simp [hac]
        · by_cases hba : b.toNat < a.toNat
          · simp [hab, hba] at h1
          · by_cases hbc : b.toNat < c.toNat
            · have hac : a.toNat < c.toNat := by omega
              simp [hac]
            · by_cases hcb : c.toNat < b.toNat
              · simp [hbc, hcb] at h2
              · have hac : ¬ a.toNat < c.toNat := by omega
                have hca : ¬ c.toNat < a.toNat := by omega
                simp only [hab, hba, if_false] at h1
                simp only [hbc, hcb, if_false] at h2
                simp only [hac, hca, if_false]
                exact ih bs' cs' h1 h2

theorem pyCharListLt_trichotomy :
    ∀ as bs, pyCharListLt as bs = true ∨ as = bs ∨ pyCharListLt bs as = true := by
  intro as
  induction as with
  | nil =>
    intro bs
    cases bs with
    | nil => right; left; rfl
    | cons b bs' => left; simp [pyCharListLt]
  | cons a as' ih =>
    intro bs
    cases bs with
    | nil => right; right; simp [pyCharListLt]
    | cons b bs' =>
      by_cases hab : a.toNat < b.toNat
      · left; simp [pyCharListLt, hab]
      · by_cases hba : b.toNat < a.toNat
        · right; right; simp [pyCharListLt, hba]
        · have heq : a = b := charToNat_inj (by omega)
          subst heq
          rcases ih bs' with h | h | h
          · left; simp [pyCharListLt, hab, hba, h]
          · right; left; rw [h]
          · right; right; simp [pyCharListLt, hab, hba, h]

theorem pyStrLt_of_le_of_ne {a b : String} (hle : pyStrLe a b = true) (hne : a ≠ b) :
    pyStrLt a b = true := by
  rcases pyCharListLt_trichotomy a.toList b.toList with h | h | h
  · exact h
  · exact absurd (String.toList_inj.mp h) hne
  · unfold pyStrLe pyStrLt at hle
    rw [h] at hle
    exact absurd hle (by simp)

theorem pyStrLe_total (a b : String) : pyStrLe a b = true ∨ pyStrLe b a = true := by
  by_cases h : pyCharListLt b.toList a.toList = true
  · right
    unfold pyStrLe pyStrLt
    rw [pyCharListLt_asymm _ _ h]
    rfl
  · left
    unfold pyStrLe pyStrLt
    rw [Bool.not_eq_true] at h
    rw [h]
    rfl

theorem pyStrLe_trans {a b c : String} (h1 : pyStrLe a b = true) (h2 : pyStrLe b c = true) :
    pyStrLe a c = true := by
  unfold pyStrLe pyStrLt at h1 h2 ⊢
  rw [Bool.not_eq_true'] at h1 h2
  rw [Bool.not_eq_true']
  cases hca : pyCharListLt c.toList a.toList with
  | false => rfl
  | true =>
    rcases pyCharListLt_trichotomy c.toList b.toList with hcb | hcb | hcb
    · rw [hcb] at h2; cases h2
    · rw [hcb] at hca; rw [hca] at h1; cases h1
    · have := pyCharListLt_trans _ _ _ hcb hca
      rw [this] at h1; cases h1

theorem insertSortedStr_perm (x : String) :
    ∀ l, List.Perm (insertSortedStr x l) (x :: l) := by
  intro l
  induction l with
  | nil => exact List.Perm.refl _
  | cons y ys ih =>
    by_cases h : pyStrLe x y = true
    · rw [insertSortedStr, if_pos h]
    · rw [insertSortedStr, if_neg h]
      exact (ih.cons y).trans (List.Perm.swap x y ys)

theorem sortStrings_perm : ∀ l, List.Perm (sortStrings l) l := by
  intro l
  induction l with
  | nil => exact List.Perm.refl _
  | cons x xs ih => exact (insertSortedStr_perm x (sortStrings xs)).trans (ih.cons x)

theorem insertSortedStr_pairwise (x : String) :
    ∀ l, l.Pairwise (fun a b => pyStrLe a b = true) →
      (insertSortedStr x l).Pairwise (fun a b => pyStrLe a b = true) := by
  intro l
  induction l with
  | nil =>
    intro _
    simp [insertSortedStr]
  | cons y ys ih =>
    intro h
    rw [List.pairwise_cons] at h
    obtain ⟨hy, hys⟩ := h
    by_cases hxy : pyStrLe x y = true
    · rw [insertSortedStr, if_pos hxy, List.pairwise_cons]
      constructor
      · intro b hb
        rcases List.mem_cons.mp hb with rfl | hb
        · exact hxy
        · exact pyStrLe_trans hxy (hy b hb)
      · rw [List.pairwise_cons]
        exact ⟨hy, hys⟩
    · rw [insertSortedStr, if_neg hxy, List.pairwise_cons]
      constructor
      · intro b hb
        have hb' := (insertSortedStr_perm x ys).mem_iff.mp hb
        rcases List.mem_cons.mp hb' with rfl | hb'
        · rcases pyStrLe_total b y with hby | hby
          · exact absurd hby hxy
          · exact hby
        · exact hy b hb'
      · exact ih hys

theorem sortStrings_pairwise :
    ∀ l, (sortStrings l).Pairwise (fun a b => pyStrLe a b = true) := by
  intro l
  induction l with
  | nil => simp [sortStrings]
  | cons x xs ih => exact insertSortedStr_pairwise x (sortStrings xs) ih

theorem sortStrings_nodup {l : List String} (h : l.Nodup) : (sortStrings l).Nodup :=
  ((sortStrings_perm l).nodup_iff).mpr h

theorem sortStrings_strictAsc {l : List String} (h : l.Nodup) : strictAsc (sortStrings l) :=
  (sortStrings_pairwise l).imp₂ (fun _ _ hle hne => pyStrLt_of_le_of_ne hle hne)
    (sortStrings_nodup h)

theorem strsOf?_ok : ∀ {l : List Json} {ss : List String},
    strsOf? l = .ok ss → ss = stringsOf l := by
  intro l
  induction l with
  | nil =>
    intro ss h
    cases h
    rfl
  | cons j rest ih =>
    intro ss h
    cases j with
    | str s =>
      simp only [strsOf?, Except.bind] at h
      cases hr : strsOf? rest with
      | error e => rw [hr] at h; exact Except.noConfusion h
      | ok tl =>
        rw [hr] at h
        cases h
        show s :: tl = s :: stringsOf rest
        exact congrArg (s :: ·) (ih hr)
    | null => exact Except.noConfusion h
    | bool b => exact Except.noConfusion h
    | num n => exact Except.noConfusion h
    | arr xs => exact Except.noConfusion h
    | obj fs => exact Except.noConfusion h

theorem pySortedStrings_ok {l : List Json} {out : List String}
    (h : pySortedStrings l = .ok out) :
    out = sortStrings (stringsOf l).dedup ∧ strictAsc out ∧ out.Nodup := by
  unfold pySortedStrings at h
  cases hs : strsOf? l with
  | error e => rw [hs] at h; exact Except.noConfusion h
  | ok ss =>
    rw [hs] at h
    simp only [Except.bind] at h
    cases h
    rw [strsOf?_ok hs]
    exact ⟨rfl, sortStrings_strictAsc (List.nodup_dedup _),
      sortStrings_nodup (List.nodup_dedup _)⟩

/-- C1: for every analysis that produces output, `unfollowers` equals
`sort(oldFollowers − newFollowers)` when an old archive is supplied and the
empty sequence otherwise, and `not_following_back` equals
`sort(newFollowing − newFollowers)`; both output sequences are strictly
ascending lexicographically and duplicate-free, even when the input documents
contained duplicate values. -/
theorem diff_outputs_are_sorted_set_differences
    (nz oldz : ZipBytes) (nf ng olf olg ru bl pe : List Json) (unf nfb : List String)
    (hg1 : is_zip_safe nz = .ok true)
    (hg2 : has_too_many_files nz = .ok false)
    (hg3 : has_dangerous_files nz = .ok false)
    (hx : extract_usernames_from_zip nz = .ok (nf, ng))
    (hru : extract_recently_unfollowed nz = .ok ru)
    (hbl : extract_blocked_users nz = .ok bl)
    (hpe : extract_pending_requests nz = .ok pe)
    (ho1 : is_zip_safe oldz = .ok true)
    (ho2 : has_too_many_files oldz = .ok false)
    (ho3 : has_dangerous_files oldz = .ok false)
    (hox : extract_usernames_from_zip oldz = .ok (olf, olg))
    (hs1 : pySortedStrings (setDiff olf nf) = .ok unf)
    (hs2 : pySortedStrings (setDiff ng nf) = .ok nfb) :
    analyze_zip_files nz none = .ok ⟨[], nfb, ru, bl, pe⟩ ∧
    analyze_zip_files nz (some oldz) = .ok ⟨unf, nfb, ru, bl, pe⟩ ∧
    unf = sortStrings (stringsOf (setDiff olf nf)).dedup ∧
    nfb = sortStrings (stringsOf (setDiff ng nf)).dedup ∧
    strictAsc unf ∧ unf.Nodup ∧ strictAsc nfb ∧ nfb.Nodup := by
  obtain ⟨he1, ha1, hn1⟩ := pySortedStrings_ok hs1
  obtain ⟨he2, ha2, hn2⟩ := pySortedStrings_ok hs2
  refine ⟨?_, ?_, he1, he2, ha1, hn1, ha2, hn2⟩
  · simp [analyze_zip_files, hg1, hg2, hg3, hx, hru, hbl, hpe, hs2, Except.bind]
  · simp [analyze_zip_files, hg1, hg2, hg3, hx, hru, hbl, hpe, ho1, ho2, ho3, hox,
      hs1, hs2, Except.bind]

/-- Witness for C1 at the concrete archives: old followers {a,b,c} (with a
duplicated value), new followers {a,c} (with a duplicated value), new
following {a,d}. -/
theorem diff_outputs_are_sorted_set_differences_witness :
    analyze_zip_files goodNew none = .ok ⟨[], ["d"], [], [], []⟩ ∧
    analyze_zip_files goodNew (some goodOld) = .ok ⟨["b"], ["d"], [], [], []⟩ ∧
    ["b"] = sortStrings (stringsOf (setDiff
      [Json.str "a", Json.str "b", Json.str "c", Json.str "b"]
      [Json.str "a", Json.str "c", Json.str "a"])).dedup ∧
    ["d"] = sortStrings (stringsOf (setDiff
      [Json.str "a", Json.str "d"]
      [Json.str "a", Json.str "c", Json.str "a"])).dedup ∧
    strictAsc ["b"] ∧ List.Nodup ["b"] ∧ strictAsc ["d"] ∧ List.Nodup ["d"] :=
  diff_outputs_are_sorted_set_differences goodNew goodOld
    [Json.str "a", Json.str "c", Json.str "a"] [Json.str "a", Json.str "d"]
    [Json.str "a", Json.str "b", Json.str "c", Json.str "b"] [Json.str "x"]
    [] [] [] ["b"] ["d"]
    rfl rfl rfl rfl rfl rfl rfl rfl rfl rfl rfl rfl rfl

theorem exceptBind_congr {ε α β : Type} {x y : Except ε α} {f g : α → Except ε β}
    (hxy : x = y) (hfg : ∀ a, f a = g a) : x.bind f = y.bind g := by
  subst hxy
  cases x with
  | error e => rfl
  | ok a => exact hfg a

/-- C2 (amended): the analysis depends on the old archive only through its
three guard checks and the followers component of its required extraction:
its optional documents are never read, and the extracted following values are
discarded.  (The following document itself IS opened and parsed inside
`extract_usernames_from_zip`, so its absence or malformed JSON does error —
see the counterexample.) -/
theorem old_archive_used_only_through_guards_and_followers
    (nz o₁ o₂ : ZipBytes)
    (h1 : is_zip_safe o₁ = is_zip_safe o₂)
    (h2 : has_too_many_files o₁ = has_too_many_files o₂)
    (h3 : has_dangerous_files o₁ = has_dangerous_files o₂)
    (h4 : (extract_usernames_from_zip o₁).map Prod.fst =
          (extract_usernames_from_zip o₂).map Prod.fst) :
    analyze_zip_files nz (some o₁) = analyze_zip_files nz (some o₂) := by
  unfold analyze_zip_files
  refine exceptBind_congr rfl fun safe => ?_
  cases safe with
  | false => rfl
  | true =>
    refine exceptBind_congr rfl fun many => ?_
    cases many with
    | true => rfl
    | false =>
      refine exceptBind_congr rfl fun dang => ?_
      cases dang with
      | true => rfl
      | false =>
        refine exceptBind_congr rfl fun nfg => ?_
        refine exceptBind_congr rfl fun recently => ?_
        refine exceptBind_congr rfl fun blocked => ?_
        refine exceptBind_congr rfl fun pending => ?_
        refine exceptBind_congr ?_ fun unfollowers => rfl
        show (is_zip_safe o₁).bind _ = (is_zip_safe o₂).bind _
        rw [h1]
        refine exceptBind_congr rfl fun osafe => ?_
        cases osafe with
        | false => rfl
        | true =>
          rw [h2]
          refine exceptBind_congr rfl fun omany => ?_
          cases omany with
          | true => rfl
          | false =>
            rw [h3]
            refine exceptBind_congr rfl fun odang => ?_
            cases odang with
            | true => rfl
            | false =>
              cases e1 : extract_usernames_from_zip o₁ with
              | error a =>
                cases e2 : extract_usernames_from_zip o₂ with
                | error b =>
                  rw [e1, e2] at h4
                  simp only [Except.map] at h4
                  cases h4
                  rfl
                | ok q =>
                  rw [e1, e2] at h4
                  simp only [Except.map] at h4
                  exact Except.noConfusion h4
              | ok p =>
                cases e2 : extract_usernames_from_zip o₂ with
                | error b =>
                  rw [e1, e2] at h4
                  simp only [Except.map] at h4
                  exact Except.noConfusion h4
                | ok q =>
                  rw [e1, e2] at h4
                  simp only [Except.map] at h4
                  injection h4 with hq
                  simp only [Except.bind, hq]

/-- The entries of `goodOld` with a different following document and an extra
malformed optional document: same guard view and same followers. -/
def goodOldVariant : ZipBytes := .valid
  [⟨FOLLOWERS_NAME, 100, some (followersDoc ["a", "b", "c", "b"])⟩,
   ⟨FOLLOWING_NAME, 50, some (followingDoc ["completely", "different"])⟩,
   ⟨RECENTLY_PATH, 10, none⟩]

/-- Witness for C2 (amended): changing the old archive's following contents
and optional documents does not change the analysis result. -/
theorem old_archive_used_only_through_guards_and_followers_witness :
    analyze_zip_files goodNew (some goodOld) =
      analyze_zip_files goodNew (some goodOldVariant) :=
  old_archive_used_only_through_guards_and_followers goodNew goodOld goodOldVariant
    rfl rfl rfl rfl

/-- An old archive that has its followers document but no following document. -/
def oldNoFollowing : ZipBytes :=
  .valid [⟨FOLLOWERS_NAME, 100, some (followersDoc ["a", "b", "c"])⟩]

/-- Counterexample to C2 as stated: the old archive IS inspected beyond its
followers set — the absence of its following document makes the whole
analysis error, although only the old followers matter for the diff. -/
theorem old_following_absence_errors_counterexample :
    analyze_zip_files goodNew (some oldNoFollowing) =
      .error (.httpError 400 MISSING_MSG) := rfl

/-- A syntactically valid new archive whose required documents are missing. -/
def cNewMissing : ZipBytes := .valid [⟨"foo.txt", 10, some Json.null⟩]

/-- An old archive whose declared sizes exceed the ceiling by one byte. -/
def cOldOversize : ZipBytes := .valid [⟨"big.bin", 52428801, none⟩]

/-- Counterexample to C3 as stated: the code runs the new archive's
extraction BEFORE validating the old archive, so with a new archive missing
its required documents and an oversized old archive the returned error is the
extraction error, not the old guard error that the spec's
validate(new) → validate(old) → extract ordering would give. -/
theorem stage_order_counterexample :
    analyze_zip_files cNewMissing (some cOldOversize) =
      .error (.httpError 400 MISSING_MSG) ∧
    analyze_specOrder cNewMissing (some cOldOversize) =
      .error (.httpError 400 "old_zip 압축 해제 용량 초과") ∧
    analyze_zip_files cNewMissing (some cOldOversize) ≠
      analyze_specOrder cNewMissing (some cOldOversize) := by
  refine ⟨rfl, rfl, fun h => ?_⟩
  have e1 : analyze_zip_files cNewMissing (some cOldOversize) =
      .error (.httpError 400 MISSING_MSG) := rfl
  have e2 : analyze_specOrder cNewMissing (some cOldOversize) =
      .error (.httpError 400 "old_zip 압축 해제 용량 초과") := rfl
  rw [e1, e2] at h
  injection h with h2
  injection h2 with hs hd
  exact absurd hd (by decide)

/-- C3 (amended): each archive's guard sequence short-circuits before that
archive's entries are parsed, in the code's actual order
validate(new) → extract(new) → validate(old) → extract(old): a failing
new-size guard returns its error with nothing else inspected (for every old
archive), and once the new pipeline has succeeded, a failing old-size guard
returns its error whatever the old archive's entry contents are. -/
theorem guard_short_circuits_before_parsing :
    (∀ (nz : ZipBytes) (oz : Option ZipBytes), is_zip_safe nz = .ok false →
      analyze_zip_files nz oz = .error (.httpError 400 "new_zip 압축 해제 용량 초과")) ∧
    (∀ (nz ob : ZipBytes) (nfg : List Json × List Json) (ru bl pe : List Json),
      is_zip_safe nz = .ok true →
      has_too_many_files nz = .ok false →
      has_dangerous_files nz = .ok false →
      extract_usernames_from_zip nz = .ok nfg →
      extract_recently_unfollowed nz = .ok ru →
      extract_blocked_users nz = .ok bl →
      extract_pending_requests nz = .ok pe →
      is_zip_safe ob = .ok false →
      analyze_zip_files nz (some ob) =
        .error (.httpError 400 "old_zip 압축 해제 용량 초과")) := by
  constructor
  · intro nz oz h
    simp [analyze_zip_files, h, Except.bind]
  · intro nz ob nfg ru bl pe hg1 hg2 hg3 hx hru hbl hpe ho
    simp [analyze_zip_files, hg1, hg2, hg3, hx, hru, hbl, hpe, ho, Except.bind]

/-- Witness for C3 (amended) at concrete archives: an oversized archive as
`new_zip` fails immediately; an oversized `old_zip` behind a fully valid
`new_zip` fails with the old guard error. -/
theorem guard_short_circuits_before_parsing_witness :
    analyze_zip_files cOldOversize none =
      .error (.httpError 400 "new_zip 압축 해제 용량 초과") ∧
    analyze_zip_files goodNew (some cOldOversize) =
      .error (.httpError 400 "old_zip 압축 해제 용량 초과") :=
  ⟨guard_short_circuits_before_parsing.1 cOldOversize none rfl,
   guard_short_circuits_before_parsing.2 goodNew cOldOversize
     ([Json.str "a", Json.str "c", Json.str "a"], [Json.str "a", Json.str "d"])
     [] [] [] rfl rfl rfl rfl rfl rfl rfl rfl⟩

/-- C4: a byte buffer that is not a valid zip container makes
`zipfile.ZipFile` raise `BadZipFile` inside `is_zip_safe`; nothing in
`analyze_zip_files` catches it, so the analysis propagates the untyped
exception instead of returning a typed "unreadable archive" client error. -/
theorem corrupt_archive_propagates_untyped_error :
    ∀ oz : Option ZipBytes,
      analyze_zip_files .corrupt oz = .error .badZipFile ∧
      PyError.badZipFile.isClientHttpError = false :=
  fun _ => ⟨rfl, rfl⟩

/-- An otherwise-valid archive whose optional recently-unfollowed document is
present but contains malformed JSON. -/
def c5zip : ZipBytes := .valid
  [⟨FOLLOWERS_NAME, 100, some (followersDoc ["a", "c", "a"])⟩,
   ⟨FOLLOWING_NAME, 50, some (followingDoc ["a", "d"])⟩,
   ⟨RECENTLY_PATH, 10, none⟩]

/-- Counterexample to C5 as stated: a present-but-malformed optional document
does NOT yield an empty sequence — the extractor catches only `KeyError`, so
the `json.JSONDecodeError` propagates and the whole analysis fails with an
untyped error. -/
theorem optional_malformed_json_fails_counterexample :
    extract_recently_unfollowed c5zip = .error .jsonDecodeError ∧
    analyze_zip_files c5zip none = .error .jsonDecodeError ∧
    PyError.jsonDecodeError.isClientHttpError = false :=
  ⟨rfl, rfl, rfl⟩

/-- C5 (amended): for each of the three optional documents, an ABSENT path is
tolerated — the `KeyError` from `zip_file.open` is caught and the extractor
returns the empty sequence — but a present path whose JSON is malformed makes
the extractor (hence the analysis) fail with the propagated
`json.JSONDecodeError`, which the `except KeyError` handler does not catch. -/
theorem optional_documents_absent_tolerated_malformed_not :
    (∀ es : List ZipEntry,
      es.find? (fun e => decide (e.name = RECENTLY_PATH)) = none →
      extract_recently_unfollowed (.valid es) = .ok []) ∧
    (∀ es : List ZipEntry,
      es.find? (fun e => decide (e.name = BLOCKED_PATH)) = none →
      extract_blocked_users (.valid es) = .ok []) ∧
    (∀ es : List ZipEntry,
      es.find? (fun e => decide (e.name = PENDING_PATH)) = none →
      extract_pending_requests (.valid es) = .ok []) ∧
    (∀ (es : List ZipEntry) (ent : ZipEntry),
      es.reverse.find? (fun e => decide (e.name = RECENTLY_PATH)) = some ent →
      ent.content = none →
      extract_recently_unfollowed (.valid es) = .error .jsonDecodeError) ∧
    (∀ (es : List ZipEntry) (ent : ZipEntry),
      es.reverse.find? (fun e => decide (e.name = BLOCKED_PATH)) = some ent →
      ent.content = none →
      extract_blocked_users (.valid es) = .error .jsonDecodeError) ∧
    (∀ (es : List ZipEntry) (ent : ZipEntry),
      es.reverse.find? (fun e => decide (e.name = PENDING_PATH)) = some ent →
      ent.content = none →
      extract_pending_requests (.valid es) = .error .jsonDecodeError) := by
  have rev : ∀ (es : List ZipEntry) (p : String),
      es.find? (fun e => decide (e.name = p)) = none →
      es.reverse.find? (fun e => decide (e.name = p)) = none := by
    intro es p h
    rw [List.find?_eq_none] at h ⊢
    intro x hx
    exact h x (List.mem_reverse.mp hx)
  refine ⟨fun es h => ?_, fun es h => ?_, fun es h => ?_,
    fun es ent h hc => ?_, fun es ent h hc => ?_, fun es ent h hc => ?_⟩
  · simp [extract_recently_unfollowed, openZip, zipOpen, rev es RECENTLY_PATH h,
      Except.bind, catchKeyError]
  · simp [extract_blocked_users, openZip, zipOpen, rev es BLOCKED_PATH h,
      Except.bind, catchKeyError]
  · simp [extract_pending_requests, openZip, zipOpen, rev es PENDING_PATH h,
      Except.bind, catchKeyError]
  · simp [extract_recently_unfollowed, openZip, zipOpen, jsonLoad, h, hc, Except.bind,
      catchKeyError]
  · simp [extract_blocked_users, openZip, zipOpen, jsonLoad, h, hc, Except.bind,
      catchKeyError]
  · simp [extract_pending_requests, openZip, zipOpen, jsonLoad, h, hc, Except.bind,
      catchKeyError]

/-- Witness for C5 (amended): the empty archive lacks all three optional
paths; singleton archives carry each optional path with malformed JSON. -/
theorem optional_documents_absent_tolerated_malformed_not_witness :
    extract_recently_unfollowed (.valid []) = .ok [] ∧
    extract_blocked_users (.valid []) = .ok [] ∧
    extract_pending_requests (.valid []) = .ok [] ∧
    extract_recently_unfollowed (.valid [⟨RECENTLY_PATH, 10, none⟩]) =
      .error .jsonDecodeError ∧
    extract_blocked_users (.valid [⟨BLOCKED_PATH, 10, none⟩]) =
      .error .jsonDecodeError ∧
    extract_pending_requests (.valid [⟨PENDING_PATH, 10, none⟩]) =
      .error .jsonDecodeError :=
  ⟨optional_documents_absent_tolerated_malformed_not.1 [] rfl,
   optional_documents_absent_tolerated_malformed_not.2.1 [] rfl,
   optional_documents_absent_tolerated_malformed_not.2.2.1 [] rfl,
   optional_documents_absent_tolerated_malformed_not.2.2.2.1
     [⟨RECENTLY_PATH, 10, none⟩] ⟨RECENTLY_PATH, 10, none⟩ rfl rfl,
   optional_documents_absent_tolerated_malformed_not.2.2.2.2.1
     [⟨BLOCKED_PATH, 10, none⟩] ⟨BLOCKED_PATH, 10, none⟩ rfl rfl,
   optional_documents_absent_tolerated_malformed_not.2.2.2.2.2
     [⟨PENDING_PATH, 10, none⟩] ⟨PENDING_PATH, 10, none⟩ rfl rfl⟩

/-- A new archive with a following document but no followers document. -/
def cMissingFollowers : ZipBytes :=
  .valid [⟨FOLLOWING_NAME, 50, some (followingDoc ["a"])⟩]

/-- A new archive with a followers document but no following document. -/
def cMissingFollowing : ZipBytes :=
  .valid [⟨FOLLOWERS_NAME, 100, some (followersDoc ["a"])⟩]

/-- Counterexample to C6 as stated: whichever required document is missing,
the code raises the SAME `HTTPException(400)` with one combined message — the
error does not name which logical document is absent, and there is no
separate MissingRequiredDocument("following") error. -/
theorem missing_required_same_error_counterexample :
    analyze_zip_files cMissingFollowers none = .error (.httpError 400 MISSING_MSG) ∧
    analyze_zip_files cMissingFollowing none = .error (.httpError 400 MISSING_MSG) ∧
    analyze_zip_files cMissingFollowers none = analyze_zip_files cMissingFollowing none :=
  ⟨rfl, rfl, rfl⟩

/-- C6 (amended): when either required document is missing from the new
archive (no entry name contains `followers_1.json`, or none contains
`following.json`), the analysis fails with the single client error
`HTTPException(400)` carrying the fixed combined detail
"followers_1.json 또는 following.json이 누락됨", identical in both cases. -/
theorem missing_required_document_combined_error
    (es : List ZipEntry) (oz : Option ZipBytes)
    (hg1 : is_zip_safe (.valid es) = .ok true)
    (hg2 : has_too_many_files (.valid es) = .ok false)
    (hg3 : has_dangerous_files (.valid es) = .ok false)
    (hmiss : (es.map (·.name)).find? (fun n => strContains n "followers_1.json") = none ∨
             (es.map (·.name)).find? (fun n => strContains n "following.json") = none) :
    extract_usernames_from_zip (.valid es) = .error (.httpError 400 MISSING_MSG) ∧
    analyze_zip_files (.valid es) oz = .error (.httpError 400 MISSING_MSG) := by
  have hex : extract_usernames_from_zip (.valid es) = .error (.httpError 400 MISSING_MSG) := by
    simp only [extract_usernames_from_zip, openZip, Except.bind]
    rcases hmiss with h | h
    · rw [h]
    · rw [h]
      cases h2 : (es.map (·.name)).find? (fun n => strContains n "followers_1.json") <;> rfl
  exact ⟨hex, by simp [analyze_zip_files, hg1, hg2, hg3, hex, Except.bind]⟩

/-- Witness for C6 (amended) at a concrete archive missing its following
document. -/
theorem missing_required_document_combined_error_witness :
    extract_usernames_from_zip (.valid [⟨FOLLOWERS_NAME, 100, some (followersDoc ["a"])⟩]) =
      .error (.httpError 400 MISSING_MSG) ∧
    analyze_zip_files (.valid [⟨FOLLOWERS_NAME, 100, some (followersDoc ["a"])⟩]) none =
      .error (.httpError 400 MISSING_MSG) :=
  missing_required_document_combined_error
    [⟨FOLLOWERS_NAME, 100, some (followersDoc ["a"])⟩] none rfl rfl rfl (Or.inr rfl)

/-- A valid archive whose declared entry sizes sum to exactly 50 MiB. -/
def cBoundary : ZipBytes := .valid
  [⟨FOLLOWERS_NAME, 52428750, some (followersDoc ["a", "c", "a"])⟩,
   ⟨FOLLOWING_NAME, 50, some (followingDoc ["a", "d"])⟩]

/-- The same archive with one more declared byte: 50 MiB + 1. -/
def cOversizeByOne : ZipBytes := .valid
  [⟨FOLLOWERS_NAME, 52428750, some (followersDoc ["a", "c", "a"])⟩,
   ⟨FOLLOWING_NAME, 51, some (followingDoc ["a", "d"])⟩]

/-- C7: the size guard reads only the declared (stored-metadata) entry sizes,
never the decompressed contents — archives with the same declared sizes get
the same verdict whatever their contents — and the boundary is inclusive: a
declared sum of exactly 50 MiB passes (the analysis of such an archive
succeeds), while one more declared byte fails with the oversize client
error. -/
theorem size_guard_uses_declared_sizes
    : (∀ es es' : List ZipEntry, es.map (·.file_size) = es'.map (·.file_size) →
        is_zip_safe (.valid es) = is_zip_safe (.valid es')) ∧
      is_zip_safe cBoundary = .ok true ∧
      analyze_zip_files cBoundary none = .ok ⟨[], ["d"], [], [], []⟩ ∧
      is_zip_safe cOversizeByOne = .ok false ∧
      analyze_zip_files cOversizeByOne none =
        .error (.httpError 400 "new_zip 압축 해제 용량 초과") := by
  refine ⟨?_, rfl, rfl, rfl, rfl⟩
  intro es es' h
  simp only [is_zip_safe, openZip, Except.bind]
  rw [h]

/-- Witness for C7: two archives with identical declared sizes but different
names and contents (one even malformed) get the identical size verdict. -/
theorem size_guard_uses_declared_sizes_witness :
    is_zip_safe (.valid [⟨"a.json", 5, some Json.null⟩]) =
      is_zip_safe (.valid [⟨"b.json", 5, none⟩]) :=
  size_guard_uses_declared_sizes.1
    [⟨"a.json", 5, some Json.null⟩] [⟨"b.json", 5, none⟩] rfl

/-- C8: the analysis keeps no state across invocations — it is a pure
function of the uploaded bytes, so two successive runs on identical byte
inputs produce identical result records. -/
theorem analyze_deterministic_across_runs :
    ∀ (nz : ZipBytes) (oz : Option ZipBytes),
      (analyze_twice nz oz).1 = (analyze_twice nz oz).2 :=
  fun _ _ => rfl

theorem titlesOf_keyError :
    ∀ records : List Json,
      (∀ r ∈ records, ∃ fs, r = Json.obj fs) →
      (∃ r ∈ records, pyIndex r "title" = .error .keyError) →
      titlesOf records = .error .keyError := by
  intro records
  induction records with
  | nil =>
    intro _ hex
    rcases hex with ⟨r, hr, _⟩
    cases hr
  | cons r rest ih =>
    intro hobj hex
    cases ht : pyIndex r "title" with
    | error e =>
      obtain ⟨fs, rfl⟩ := hobj r (List.mem_cons_self r rest)
      simp only [pyIndex] at ht
      cases hf : fs.find? (fun p => decide (p.1 = "title")) with
      | some p => rw [hf] at ht; exact Except.noConfusion ht
      | none =>
        simp [titlesOf, pyIndex, hf, Except.bind]
    | ok t =>
      have hex' : ∃ r' ∈ rest, pyIndex r' "title" = .error .keyError := by
        rcases hex with ⟨r', hr', he'⟩
        rcases List.mem_cons.mp hr' with rfl | hr'
        · rw [ht] at he'; exact Except.noConfusion he'
        · exact ⟨r', hr', he'⟩
      have hrest := ih (fun x hx => hobj x (List.mem_cons_of_mem r hx)) hex'
      simp [titlesOf, ht, hrest, Except.bind]

/-- C9: when the blocked-profiles document parses but one of its records
(all of them JSON objects) lacks a `title` field, the `KeyError` raised mid
list-comprehension is caught by the extractor's `except KeyError` handler, so
`extract_blocked_users` returns the EMPTY list — the titles of the
well-formed records in the same document are discarded too — and the overall
analysis still succeeds with `blocked_users = []`. -/
theorem blocked_record_without_title_discards_all
    (es : List ZipEntry) (ent : ZipEntry) (data relv : Json) (records : List Json)
    (nf ng ru pe : List Json) (nfb : List String)
    (hfind : es.reverse.find? (fun e => decide (e.name = BLOCKED_PATH)) = some ent)
    (hcontent : ent.content = some data)
    (hrel : pyGetDefault data "relationships_blocked_users" (Json.arr []) = .ok relv)
    (hiter : pyIter relv = .ok records)
    (hobj : ∀ r ∈ records, ∃ fs, r = Json.obj fs)
    (hbad : ∃ r ∈ records, pyIndex r "title" = .error .keyError)
    (hg1 : is_zip_safe (.valid es) = .ok true)
    (hg2 : has_too_many_files (.valid es) = .ok false)
    (hg3 : has_dangerous_files (.valid es) = .ok false)
    (hx : extract_usernames_from_zip (.valid es) = .ok (nf, ng))
    (hru : extract_recently_unfollowed (.valid es) = .ok ru)
    (hpe : extract_pending_requests (.valid es) = .ok pe)
    (hs : pySortedStrings (setDiff ng nf) = .ok nfb) :
    extract_blocked_users (.valid es) = .ok [] ∧
    analyze_zip_files (.valid es) none = .ok ⟨[], nfb, ru, [], pe⟩ := by
  have hbl : extract_blocked_users (.valid es) = .ok [] := by
    simp [extract_blocked_users, openZip, zipOpen, hfind, jsonLoad, hcontent, hrel, hiter,
      titlesOf_keyError records hobj hbad, Except.bind, catchKeyError]
  exact ⟨hbl, by simp [analyze_zip_files, hg1, hg2, hg3, hx, hru, hbl, hpe, hs, Except.bind]⟩

/-- The blocked-profiles document of the C9 witness: a first record with a
title and a second record without one. -/
def c9blockedDoc : Json :=
  Json.obj [("relationships_blocked_users",
    Json.arr [Json.obj [("title", Json.str "t1")], Json.obj [("href", Json.str "h")]])]

/-- The entries of the C9 witness archive. -/
def c9entries : List ZipEntry :=
  [⟨FOLLOWERS_NAME, 100, some (followersDoc ["a", "c", "a"])⟩,
   ⟨FOLLOWING_NAME, 50, some (followingDoc ["a", "d"])⟩,
   ⟨BLOCKED_PATH, 20, some c9blockedDoc⟩]

/-- Witness for C9 at the concrete archive `c9entries`. -/
theorem blocked_record_without_title_discards_all_witness :
    extract_blocked_users (.valid c9entries) = .ok [] ∧
    analyze_zip_files (.valid c9entries) none = .ok ⟨[], ["d"], [], [], []⟩ :=
  blocked_record_without_title_discards_all c9entries
    ⟨BLOCKED_PATH, 20, some c9blockedDoc⟩ c9blockedDoc
    (Json.arr [Json.obj [("title", Json.str "t1")], Json.obj [("href", Json.str "h")]])
    [Json.obj [("title", Json.str "t1")], Json.obj [("href", Json.str "h")]]
    [Json.str "a", Json.str "c", Json.str "a"] [Json.str "a", Json.str "d"]
    [] [] ["d"]
    rfl rfl rfl rfl
    (by
      intro r hr
      rcases List.mem_cons.mp hr with rfl | hr
      · exact ⟨_, rfl⟩
      · rcases List.mem_cons.mp hr with rfl | hr
        · exact ⟨_, rfl⟩
        · cases hr)
    ⟨Json.obj [("href", Json.str "h")], by simp, rfl⟩
    rfl rfl rfl rfl rfl rfl rfl

theorem zipOpen_append_not_named (es extra : List ZipEntry) (p : String)
    (h : ∀ x ∈ extra, x.name ≠ p) :
    zipOpen (es ++ extra) p = zipOpen es p := by
  unfold zipOpen
  rw [List.reverse_append, List.find?_append]
  have hnone : extra.reverse.find? (fun e => decide (e.name = p)) = none := by
    rw [List.find?_eq_none]
    intro x hx
    simp only [decide_eq_true_eq]
    exact h x (List.mem_reverse.mp hx)
  rw [hnone]
  simp [Option.or]

/-- The base archive for the C10 counterexample: one followers document with
value "a" and one following document. -/
def dupBase : List ZipEntry :=
  [⟨FOLLOWERS_NAME, 100, some (followersDoc ["a"])⟩,
   ⟨FOLLOWING_NAME, 50, some (followingDoc ["a"])⟩]

/-- A second entry with EXACTLY the same name as the followers document but
different contents. -/
def dupExact : ZipEntry := ⟨FOLLOWERS_NAME, 100, some (followersDoc ["b"])⟩

/-- Counterexample to C10 as stated: with two entries bearing exactly the
same followers document name, the later entry is NOT ignored — CPython's
name lookup resolves to the LAST same-named entry, so appending the
duplicate changes the extracted followers from {"a"} to {"b"}. -/
theorem duplicate_exact_name_last_wins_counterexample :
    extract_usernames_from_zip (.valid dupBase) =
      .ok ([Json.str "a"], [Json.str "a"]) ∧
    extract_usernames_from_zip (.valid (dupBase ++ [dupExact])) =
      .ok ([Json.str "b"], [Json.str "a"]) ∧
    extract_usernames_from_zip (.valid (dupBase ++ [dupExact])) ≠
      extract_usernames_from_zip (.valid dupBase) := by
  refine ⟨rfl, rfl, fun h => ?_⟩
  have e1 : extract_usernames_from_zip (.valid (dupBase ++ [dupExact])) =
      .ok ([Json.str "b"], [Json.str "a"]) := rfl
  have e2 : extract_usernames_from_zip (.valid dupBase) =
      .ok ([Json.str "a"], [Json.str "a"]) := rfl
  rw [e1, e2] at h
  injection h with h2
  injection h2 with ha hb
  injection ha with hh ht
  injection hh with hs
  exact absurd hs (by decide)

/-- C10 (amended): when several entry names contain `followers_1.json` (or
`following.json`), no uniqueness error is raised and the FIRST matching name
in the archive's namelist order is selected as the required document path;
matching entries whose names differ from that selected path are ignored —
appending any such entries never changes the extraction result.  (An entry
duplicating the selected name EXACTLY is not ignored: CPython's name lookup
then opens the last same-named entry — see the counterexample.) -/
theorem duplicate_required_first_name_others_ignored
    (es extra : List ZipEntry) (fp gp : String)
    (hf : (es.map (·.name)).find? (fun n => strContains n "followers_1.json") = some fp)
    (hg : (es.map (·.name)).find? (fun n => strContains n "following.json") = some gp)
    (hne : ∀ x ∈ extra, x.name ≠ fp ∧ x.name ≠ gp) :
    extract_usernames_from_zip (.valid (es ++ extra)) =
      extract_usernames_from_zip (.valid es) := by
  simp only [extract_usernames_from_zip, openZip, Except.bind, List.map_append,
    List.find?_append, hf, hg, Option.or]
  rw [zipOpen_append_not_named es extra fp (fun x hx => (hne x hx).1),
    zipOpen_append_not_named es extra gp (fun x hx => (hne x hx).2)]

/-- A second followers document entry with different contents and a DIFFERENT
name that still contains the `followers_1.json` substring. -/
def dupFollowersEntry : ZipEntry :=
  ⟨"extra/followers_1.json", 10, some (followersDoc ["zzz"])⟩

/-- Witness for C10 (amended): appending a second matching `followers_1.json`
entry under a different name leaves the extraction unchanged — the duplicate
match is ignored, not an error. -/
theorem duplicate_required_first_name_others_ignored_witness :
    extract_usernames_from_zip (.valid
      ([⟨FOLLOWERS_NAME, 100, some (followersDoc ["a", "c", "a"])⟩,
        ⟨FOLLOWING_NAME, 50, some (followingDoc ["a", "d"])⟩] ++ [dupFollowersEntry])) =
      extract_usernames_from_zip (.valid
        [⟨FOLLOWERS_NAME, 100, some (followersDoc ["a", "c", "a"])⟩,
         ⟨FOLLOWING_NAME, 50, some (followingDoc ["a", "d"])⟩]) :=
  duplicate_required_first_name_others_ignored
    [⟨FOLLOWERS_NAME, 100, some (followersDoc ["a", "c", "a"])⟩,
     ⟨FOLLOWING_NAME, 50, some (followingDoc ["a", "d"])⟩]
    [dupFollowersEntry] FOLLOWERS_NAME FOLLOWING_NAME rfl rfl
    (by
      intro x hx
      rcases List.mem_cons.mp hx with rfl | hx
      · exact ⟨by decide, by decide⟩
      · cases hx)
